import Mathlib

/-!
Verification of the csaf_distribution advisory downloader.

This file gives a shallow embedding, in Lean 4, of the parts of the Go
sources that the checked claims are about:

* `pkg/errs/errors.go` — the error taxonomy: the two composite error
  types (`CompositeErrRolieFeed`, `CompositeErrCsafDownload`) and
  `FlattenError`;
* `cmd/csaf_downloader/forwarder.go` — `validationStatus` with its
  `update` method, and the job run by `Forwarder.forward` together with
  `Forwarder.storeFailedAdvisory`;
* `cmd/csaf_downloader/downloader.go` — `loadHashes` with the per-file
  hash-fetch planning of `downloadWorker`, the per-advisory body of
  `downloadWorker` (fetch, classification of non-200 statuses, the six
  validation checks, forwarding and storage), and `loadOpenPGPKeys`.

External effects (HTTP, the OpenPGP library, the JSON-schema engine,
the remote validator, the clock) are passed in as explicit oracle
values/functions; the embedded control flow is translated line by line
from the Go sources.  Byte strings are modelled as `List Nat`, file
paths as lists of path segments (`path.Join`/`filepath.Join` become
list concatenation), and logging is elided.
-/

/-! ## Error taxonomy (`pkg/errs/errors.go`) -/

/-- A Go `error` value as far as the `errs` package can observe it:
`base` is a non-composite error without a cause (e.g. `errors.New` or a
typed leaf error), `wrap` is `fmt.Errorf("...: %w", e)` (single
`Unwrap() error`), `join` is `errors.Join` (`Unwrap() []error`),
`rolie` is `*CompositeErrRolieFeed` and `download` is
`*CompositeErrCsafDownload` (both with `Unwrap() []error`). -/
inductive GoErr where
  | base : String → GoErr
  | wrap : String → GoErr → GoErr
  | join : List GoErr → GoErr
  | rolie : List GoErr → GoErr
  | download : List GoErr → GoErr

mutual

/-- Go `errors.As(err, &target)` with `target : *CompositeErrRolieFeed`:
test the node itself, then recurse into the unwrap tree depth-first,
returning the `Errs` list of the first match. -/
def asRolie : GoErr → Option (List GoErr)
  | .base _ => none
  | .wrap _ e => asRolie e
  | .join es => asRolieList es
  | .rolie es => some es
  | .download es => asRolieList es

/-- `errors.As` over the children of a multi-unwrap node, first match wins. -/
def asRolieList : List GoErr → Option (List GoErr)
  | [] => none
  | e :: rest =>
    match asRolie e with
    | some r => some r
    | none => asRolieList rest

end

mutual

/-- Go `errors.As(err, &target)` with `target : *CompositeErrCsafDownload`. -/
def asDownload : GoErr → Option (List GoErr)
  | .base _ => none
  | .wrap _ e => asDownload e
  | .join es => asDownloadList es
  | .rolie es => asDownloadList es
  | .download es => some es

/-- `errors.As` over the children of a multi-unwrap node, first match wins. -/
def asDownloadList : List GoErr → Option (List GoErr)
  | [] => none
  | e :: rest =>
    match asDownload e with
    | some r => some r
    | none => asDownloadList rest

end

/-- `errs.FlattenError`: if a `CompositeErrRolieFeed` is reachable from
`err`, walk its element list; every element from which a
`CompositeErrCsafDownload` is reachable contributes that composite's
elements, every other element contributes itself; with no reachable
`CompositeErrRolieFeed` the result is the singleton `[err]`. -/
def FlattenError (err : GoErr) : List GoErr :=
  match asRolie err with
  | some es =>
    es.flatMap fun e =>
      match asDownload e with
      | some ds => ds
      | none => [e]
  | none => [err]

/-! ## Validation status (`cmd/csaf_downloader/forwarder.go`) -/

/-- The `validationStatus` string type: `"valid"`, `"invalid"`,
`"not_validated"`. -/
inductive validationStatus where
  | valid
  | invalid
  | notValidated
deriving DecidableEq

/-- `validationStatus.update`: `if *vs != invalidValidationStatus { *vs = status }`
— cannot heal after it fails at least once. -/
def validationStatus.update (vs status : validationStatus) : validationStatus :=
  if vs = .invalid then vs else status

/-! ## Data model of the downloader (`cmd/csaf_downloader/downloader.go`)

The `hashAlgorithm` constants, the `stats` struct and the relevant
`Config` fields live in files of the same package whose bodies are not
part of this extract, but every use below is dictated by
`downloader.go`/`forwarder.go` themselves. -/

/-- Byte strings (`[]byte`); only construction and equality matter here. -/
abbrev Bytes := List Nat

/-- `hashAlgorithm` with its two constants `algSha256 = "sha256"` and
`algSha512 = "sha512"`. -/
inductive hashAlgorithm where
  | sha256
  | sha512
deriving DecidableEq

/-- `Config.ValidationMode`: `strict` is `ValidationStrict`, `lax` is
the other mode (spelled "unsafe" in the Go sources), under which
failing checks do not abort the advisory. -/
inductive ValidationMode where
  | strict
  | lax
deriving DecidableEq

/-- The `Config` fields read by the code under verification.
`PreferredHash = none` models the empty/unset `preferred_hash` string,
for which `strings.EqualFold` matches neither constant. -/
structure Config where
  Directory : String
  Folder : String
  NoStore : Bool
  ValidationMode : ValidationMode
  PreferredHash : Option hashAlgorithm
  IgnoreSignatureCheck : Bool
  ForwardChannel : Bool
  ForwardURL : String
  ForwardQueue : Int
  Worker : Int

/-- A `csaf.AdvisoryFile` descriptor as consumed by `downloadWorker`:
the methods `URL()`, `SHA256URL()`, `SHA512URL()`, `SignURL()` and
`IsDirectory()`; an empty string is a missing sidecar URL. -/
structure AdvisoryFile where
  url : String
  sha256URL : String
  sha512URL : String
  signURL : String
  isDirectory : Bool

/-- `hashFetchInfo` (downloader.go). -/
structure hashFetchInfo where
  url : String
  preferred : Bool
  warn : Bool
  hashType : hashAlgorithm

/-- The `stats` counters of the worker pool (fields as used in
`downloadWorker`). -/
structure stats where
  downloadFailed : Nat := 0
  filenameFailed : Nat := 0
  sha256Failed : Nat := 0
  sha512Failed : Nat := 0
  signatureFailed : Nat := 0
  schemaFailed : Nat := 0
  remoteFailed : Nat := 0
  succeeded : Nat := 0
deriving DecidableEq

/-- The kind of an error value sent on the worker error channel
(message formatting elided): the four typed kinds of `pkg/errs`, a
bare `fmt.Errorf` error, and a bare error wrapping the
`errs.ErrRetryable` marker. -/
inductive WorkerErr where
  | network
  | invalidCsaf
  | providerIssue
  | invalidCredentials
  | retryable
  | bare
deriving DecidableEq

/-- The `switch` on `resp.StatusCode` in `downloadWorker` for a non-200
response: 401 ⇒ `ErrInvalidCredentials`, 404 ⇒ `ErrCsafProviderIssue`,
`>= 500` ⇒ a bare error wrapping `ErrRetryable`, default ⇒ bare error. -/
def classifyStatus (status : Nat) : WorkerErr :=
  if status = 401 then .invalidCredentials
  else if status = 404 then .providerIssue
  else if 500 ≤ status then .retryable
  else .bare

/-- Go `strings.ToLower`, modelled characterwise (structurally
recursive, so that closed instances evaluate); adequate for the ASCII
TLP labels and hexadecimal fingerprints the code feeds it. -/
def goToLower (s : String) : String := String.mk (s.data.map Char.toLower)

/-! ## Hash sidecar fetching (`loadHashes`, downloader.go) -/

/-- Go `slices.SortStableFunc(hashes, cmp)` with the comparator that
orders preferred intents first and reports ties otherwise.  For this
two-valued key the (unique) stable sort is the stable partition:
preferred entries first, original order preserved inside each class. -/
def sortPreferredFirst (hashes : List hashFetchInfo) : List hashFetchInfo :=
  hashes.filter (fun h => h.preferred) ++ hashes.filter (fun h => !h.preferred)

/-- The result of `loadHashes` (its four return values, `none` for a
nil slice) plus, as an observation, the URLs handed to `loadHash` in
order. -/
structure HashesResult where
  remoteSha256 : Option Bytes := none
  sha256Data : Option Bytes := none
  remoteSha512 : Option Bytes := none
  sha512Data : Option Bytes := none
  fetched : List String := []

/-- The fetch loop of `loadHashes`.  The oracle
`fetch : String → Option (Bytes × Bytes)` stands for `loadHash`:
`none` is any failure (transport error, non-200, parse error), `some
(remote, data)` is the parsed digest and the sidecar bytes.  On
success the digest is recorded under the intent's algorithm and the
loop breaks iff the intent was preferred; on failure the loop logs and
continues. -/
def loadHashesLoop (fetch : String → Option (Bytes × Bytes)) :
    List hashFetchInfo → HashesResult → HashesResult
  | [], acc => acc
  | h :: rest, acc =>
    let acc := { acc with fetched := acc.fetched ++ [h.url] }
    match fetch h.url with
    | none => loadHashesLoop fetch rest acc
    | some (remote, data) =>
      let acc :=
        match h.hashType with
        | .sha512 => { acc with remoteSha512 := some remote, sha512Data := some data }
        | .sha256 => { acc with remoteSha256 := some remote, sha256Data := some data }
      if h.preferred then acc else loadHashesLoop fetch rest acc

/-- `loadHashes`: stable-sort the intents preferred-first, then run the
fetch loop. -/
def loadHashes (fetch : String → Option (Bytes × Bytes))
    (hashes : List hashFetchInfo) : HashesResult :=
  loadHashesLoop fetch (sortPreferredFirst hashes) {}

/-- The hash fetch planning of `downloadWorker` (lines 543–568): one
intent per non-empty sidecar URL, sha512 first, `preferred` iff the
configured hash equals the intent's algorithm, and `warn` cleared for
directory-style descriptors. -/
def buildHashToFetch (cfg : Config) (file : AdvisoryFile) : List hashFetchInfo :=
  let l : List hashFetchInfo :=
    (if file.sha512URL ≠ "" then
      [{ url := file.sha512URL, warn := true, hashType := .sha512,
         preferred := cfg.PreferredHash = some .sha512 }]
     else []) ++
    (if file.sha256URL ≠ "" then
      [{ url := file.sha256URL, warn := true, hashType := .sha256,
         preferred := cfg.PreferredHash = some .sha256 }]
     else [])
  if file.isDirectory then l.map (fun h => { h with warn := false }) else l

/-! ## The validation checks of `downloadWorker` (lines 601–708) -/

/-- The outcome of a schema validation call
`errors, err := csaf.ValidateCSAF(doc)`: `ok` (no error, no issues),
`invalid` (issues reported), `engineError` (the validator itself
errored). -/
inductive SchemaResult where
  | ok
  | invalid
  | engineError
deriving DecidableEq

/-- A wall-clock instant; the code only ever observes
`t.UTC().Year()`. -/
structure GoTime where
  utcYear : Int
deriving DecidableEq

/-- What one of the six check closures does when it runs: the errors it
sends on the error channel, the stats counters it bumps, and whether it
returns a non-nil error (`failed`).  `remoteValidatorCheck` can emit an
error yet return nil, hence the separation. -/
structure CheckSpec where
  emitted : List WorkerErr
  bump : stats → stats
  failed : Bool

/-- A check that does nothing and passes. -/
def passCheck : CheckSpec := { emitted := [], bump := fun st => st, failed := false }

/-- The oracle for one advisory: everything `downloadWorker` learns
from the outside world, indexed by where in the control flow it is
learnt.  Fields model, in order: `url.Parse` success and the resulting
`filepath.Base(u.Path)`; `cfg.ignoreURL`; `util.ConformingFileName`;
the advisory GET (`none` = transport error, otherwise status code and
body) and the `io.ReadAll` outcome; the `loadHash` oracle; JSON
decoding; the sha256/sha512 functions; whether `d.keys != nil`;
`loadSignature` (`some data` = fetched with 200 and parsed, `none` =
any failure) and the detached-signature verification verdict;
`csaf.ValidateCSAF`; `util.IDMatchesFilename`; whether `d.validator !=
nil` and its verdict (`none` = the call itself failed); whether
`d.Forwarder != nil`; the extracted
`/document/tracking/initial_release_date` (`none` = missing or
unparsable) and `time.Now()`. -/
structure AdvEnv where
  urlParseOk : Bool
  filename : String
  ignored : Bool
  conforming : Bool
  getResult : Option (Nat × Bytes)
  readOk : Bool
  hashFetch : String → Option (Bytes × Bytes)
  jsonDecodeOk : Bool
  sha256Fn : Bytes → Bytes
  sha512Fn : Bytes → Bytes
  keyringPresent : Bool
  signatureFetch : Option Bytes
  signatureVerifies : Bool
  schemaResult : SchemaResult
  idMatchesFilename : Bool
  validatorPresent : Bool
  validatorResult : Option Bool
  forwarderPresent : Bool
  releaseDate : Option GoTime
  now : GoTime

/-- `s256Check`: runs only if a sha256 digest was fetched (`s256 != nil`);
fails on digest mismatch, bumping `sha256Failed` and emitting
`ErrCsafProviderIssue`. -/
def s256Check (env : AdvEnv) (hr : HashesResult) (body : Bytes) : CheckSpec :=
  match hr.remoteSha256 with
  | some remote =>
    if env.sha256Fn body ≠ remote then
      { emitted := [.providerIssue],
        bump := fun st => { st with sha256Failed := st.sha256Failed + 1 },
        failed := true }
    else passCheck
  | none => passCheck

/-- `s512Check`: symmetric to `s256Check`. -/
def s512Check (env : AdvEnv) (hr : HashesResult) (body : Bytes) : CheckSpec :=
  match hr.remoteSha512 with
  | some remote =>
    if env.sha512Fn body ≠ remote then
      { emitted := [.providerIssue],
        bump := fun st => { st with sha512Failed := st.sha512Failed + 1 },
        failed := true }
    else passCheck
  | none => passCheck

/-- `keysCheck`: only with a non-empty keyring; a failed signature
download or parse merely warns; a failed verification fails the check
(bumping `signatureFailed`, emitting `ErrCsafProviderIssue`) unless
`ignore_signature_check` is set. -/
def keysCheck (cfg : Config) (env : AdvEnv) : CheckSpec :=
  if env.keyringPresent then
    match env.signatureFetch with
    | some _ =>
      if env.signatureVerifies then passCheck
      else if cfg.IgnoreSignatureCheck then passCheck
      else
        { emitted := [.providerIssue],
          bump := fun st => { st with signatureFailed := st.signatureFailed + 1 },
          failed := true }
    | none => passCheck
  else passCheck

/-- `schemaCheck`: bumps `schemaFailed` on any failure; an engine error
is sent as a bare wrapped error, reported issues as `ErrInvalidCsaf`. -/
def schemaCheck (env : AdvEnv) : CheckSpec :=
  match env.schemaResult with
  | .ok => passCheck
  | .invalid =>
    { emitted := [.invalidCsaf],
      bump := fun st => { st with schemaFailed := st.schemaFailed + 1 },
      failed := true }
  | .engineError =>
    { emitted := [.bare],
      bump := fun st => { st with schemaFailed := st.schemaFailed + 1 },
      failed := true }

/-- `filenameCheck`: `util.IDMatchesFilename` failure bumps
`filenameFailed` and emits `ErrInvalidCsaf`. -/
def filenameCheck (env : AdvEnv) : CheckSpec :=
  if env.idMatchesFilename then passCheck
  else
    { emitted := [.invalidCsaf],
      bump := fun st => { st with filenameFailed := st.filenameFailed + 1 },
      failed := true }

/-- `remoteValidatorCheck`: only with a configured validator; a failed
call emits a bare error but returns nil; an invalid verdict bumps
`remoteFailed`, emits `ErrInvalidCsaf` and fails. -/
def remoteValidatorCheck (env : AdvEnv) : CheckSpec :=
  if env.validatorPresent then
    match env.validatorResult with
    | none => { emitted := [.bare], bump := fun st => st, failed := false }
    | some true => passCheck
    | some false =>
      { emitted := [.invalidCsaf],
        bump := fun st => { st with remoteFailed := st.remoteFailed + 1 },
        failed := true }
  else passCheck

/-- The fixed check list of the worker, in source order. -/
def checksOf (cfg : Config) (env : AdvEnv) (hr : HashesResult) (body : Bytes) :
    List CheckSpec :=
  [s256Check env hr body,
   s512Check env hr body,
   keysCheck cfg env,
   schemaCheck env,
   filenameCheck env,
   remoteValidatorCheck env]

/-- The loop state of the validation `for` loop: accumulated stats and
channel errors, the `valStatus` variable, and whether a `continue
nextAdvisory` has fired (strict mode only). -/
structure CheckState where
  st : stats
  errors : List WorkerErr
  valStatus : validationStatus
  aborted : Bool

/-- The state at the top of the loop: `valStatus :=
notValidatedValidationStatus`, nothing accumulated. -/
def initialCheckState : CheckState :=
  { st := {}, errors := [], valStatus := .notValidated, aborted := false }

/-- One iteration of the validation loop: skipped entirely after a
strict-mode abort; otherwise the check's bumps and emissions apply and,
on failure, `valStatus.update(invalid)` runs and strict mode aborts. -/
def runCheck (strict : Bool) (cs : CheckState) (c : CheckSpec) : CheckState :=
  if cs.aborted then cs
  else
    { st := c.bump cs.st
      errors := cs.errors ++ c.emitted
      valStatus := if c.failed then cs.valStatus.update .invalid else cs.valStatus
      aborted := c.failed && strict }

/-- The whole validation loop. -/
def runChecks (strict : Bool) (cs : CheckState) (checks : List CheckSpec) : CheckState :=
  checks.foldl (runCheck strict) cs

/-- A check whose stats bumps leave `downloadFailed` and `succeeded`
unchanged. -/
def bumpPreserves (c : CheckSpec) : Prop :=
  ∀ st : stats, (c.bump st).downloadFailed = st.downloadFailed ∧
    (c.bump st).succeeded = st.succeeded

/-- The `loadHashes` call of the worker on the planned intents. -/
def workerHashes (cfg : Config) (file : AdvisoryFile) (env : AdvEnv) : HashesResult :=
  loadHashes env.hashFetch (buildHashToFetch cfg file)

/-- The validation loop as the worker runs it: strict iff the
configured mode is strict, starting from `initialCheckState`, over the
six checks. -/
def workerChecks (cfg : Config) (file : AdvisoryFile) (env : AdvEnv) (body : Bytes) :
    CheckState :=
  runChecks (cfg.ValidationMode = ValidationMode.strict) initialCheckState
    (checksOf cfg env (workerHashes cfg file env) body)

/-! ## The per-advisory body of `downloadWorker` (lines 452–788) -/

/-- A job handed to `Forwarder.forward`: the conforming filename, the
buffered document bytes, the final validation status, and the sidecar
bytes (`string(s256Data)`/`string(s512Data)`, so a nil slice becomes
empty). -/
structure ForwardJob where
  filename : String
  doc : Bytes
  status : validationStatus
  sha256Data : Bytes
  sha512Data : Bytes
deriving DecidableEq

/-- Everything one advisory produces: the per-worker stats delta, the
errors sent on the error channel in order, the URLs `loadHashes`
fetched, the job handed to the forwarder (if any), the bytes emitted on
the `Csafs` channel (if any), and the files written, each as (path
segments, contents). -/
structure WorkerOutcome where
  st : stats
  errors : List WorkerErr
  hashFetched : List String
  forwarded : Option ForwardJob
  csafEmitted : Option Bytes
  written : List (List String × Bytes)

/-- The empty outcome. -/
def emptyOutcome : WorkerOutcome :=
  { st := {}, errors := [], hashFetched := [], forwarded := none,
    csafEmitted := none, written := [] }

/-- `failedValidationDir`. -/
def failedValidationDir : String := "failed_validation"

/-- The body of `downloadWorker` for one advisory file, translated
clause by clause from downloader.go lines 465–787:

1. `url.Parse` failure ⇒ `downloadFailed++`, skip (no channel error);
2. `ignoreURL` ⇒ silent skip;
3. non-conforming filename ⇒ `filenameFailed++`, `ErrInvalidCsaf`, skip;
4. GET transport error ⇒ `downloadFailed++`, `ErrNetwork`, skip;
5. body read error ⇒ `downloadFailed++`, `ErrNetwork`, skip;
6. non-200 status ⇒ classified error, `downloadFailed++`, skip;
7. hash planning + `loadHashes`;
8. JSON decode failure ⇒ `downloadFailed++`, `ErrInvalidCsaf`, skip;
9. the six checks with `valStatus` starting at `not_validated`; in
   strict mode the first failure aborts the advisory; otherwise
   `valStatus.update(valid)`;
10. forwarding and the optional `Csafs` channel emission;
11. `no_store` ⇒ `succeeded++` iff valid, skip storage; else the
    destination is `<dir>[/failed_validation]</folder | label/year>`
    with the UTC year of the release date (now on extraction failure);
12. write the advisory and each fetched sidecar (file-system writes are
    assumed to succeed in this model). -/
def downloadWorkerStep (cfg : Config) (file : AdvisoryFile) (label : String)
    (env : AdvEnv) : WorkerOutcome :=
  if !env.urlParseOk then
    { emptyOutcome with st := { downloadFailed := 1 } }
  else if env.ignored then emptyOutcome
  else if !env.conforming then
    { emptyOutcome with st := { filenameFailed := 1 }, errors := [.invalidCsaf] }
  else
    match env.getResult with
    | none =>
      { emptyOutcome with st := { downloadFailed := 1 }, errors := [.network] }
    | some (status, body) =>
      if !env.readOk then
        { emptyOutcome with st := { downloadFailed := 1 }, errors := [.network] }
      else if status ≠ 200 then
        { emptyOutcome with
          st := { downloadFailed := 1 }
          errors := [classifyStatus status] }
      else
        let hr := workerHashes cfg file env
        if !env.jsonDecodeOk then
          { emptyOutcome with
            st := { downloadFailed := 1 }
            errors := [.invalidCsaf]
            hashFetched := hr.fetched }
        else
          let signData : Option Bytes :=
            if env.keyringPresent then env.signatureFetch else none
          let cs := workerChecks cfg file env body
          if cs.aborted then
            { st := cs.st, errors := cs.errors, hashFetched := hr.fetched,
              forwarded := none, csafEmitted := none, written := [] }
          else
            let valStatus := cs.valStatus.update .valid
            let forwarded : Option ForwardJob :=
              if env.forwarderPresent then
                some { filename := env.filename, doc := body, status := valStatus,
                       sha256Data := hr.sha256Data.getD [],
                       sha512Data := hr.sha512Data.getD [] }
              else none
            let csafE : Option Bytes := if cfg.ForwardChannel then some body else none
            if cfg.NoStore then
              { st := if valStatus = .valid then
                  { cs.st with succeeded := cs.st.succeeded + 1 } else cs.st
                errors := cs.errors, hashFetched := hr.fetched,
                forwarded := forwarded, csafEmitted := csafE, written := [] }
            else
              let initialReleaseDate := env.releaseDate.getD env.now
              let newDir : List String :=
                (if valStatus ≠ .valid then [cfg.Directory, failedValidationDir]
                 else [cfg.Directory]) ++
                (if cfg.Folder ≠ "" then [cfg.Folder]
                 else [goToLower label, toString initialReleaseDate.utcYear])
              let files : List (List String × Bytes) :=
                [(newDir ++ [env.filename], body)] ++
                (match hr.sha256Data with
                 | some d => [(newDir ++ [env.filename ++ ".sha256"], d)]
                 | none => []) ++
                (match hr.sha512Data with
                 | some d => [(newDir ++ [env.filename ++ ".sha512"], d)]
                 | none => []) ++
                (match signData with
                 | some d => [(newDir ++ [env.filename ++ ".asc"], d)]
                 | none => [])
              { st := { cs.st with succeeded := cs.st.succeeded + 1 }
                errors := cs.errors, hashFetched := hr.fetched,
                forwarded := forwarded, csafEmitted := csafE, written := files }

/-! ## The forwarder (`cmd/csaf_downloader/forwarder.go`) -/

/-- `failedForwardDir`. -/
def failedForwardDir : String := "failed_forward"

/-- The oracle for one forward job: whether `buildRequest` (multipart
assembly + `http.NewRequest`) succeeds, and the POST outcome (`none` =
transport error, otherwise the response status code). -/
structure ForwardEnv where
  buildOk : Bool
  postResult : Option Nat

/-- The counters and disk writes one forward job produces. -/
structure ForwardOutcome where
  succeeded : Nat
  failed : Nat
  written : List (List String × String)
deriving DecidableEq

/-- `Forwarder.storeFailedAdvisory`: under
`<Directory>/failed_forward/`, write each of `{filename, doc}`,
`{filename+".sha256", sha256}`, `{filename+".sha512", sha512}` whose
contents are non-empty (directory creation and writes are assumed to
succeed in this model). -/
def storeFailedAdvisory (cfg : Config) (filename doc sha256 sha512 : String) :
    List (List String × String) :=
  (if doc.length ≠ 0 then [([cfg.Directory, failedForwardDir, filename], doc)]
   else []) ++
  (if sha256.length ≠ 0 then
    [([cfg.Directory, failedForwardDir, filename ++ ".sha256"], sha256)]
   else []) ++
  (if sha512.length ≠ 0 then
    [([cfg.Directory, failedForwardDir, filename ++ ".sha512"], sha512)]
   else [])

/-- `Forwarder.storeFailed`: `failed++`, then `storeFailedAdvisory`. -/
def storeFailed (cfg : Config) (filename doc sha256 sha512 : String) :
    ForwardOutcome :=
  { succeeded := 0, failed := 1,
    written := storeFailedAdvisory cfg filename doc sha256 sha512 }

/-- The closure queued by `Forwarder.forward` (lines 241–281): build
the multipart request, POST it, and treat exactly `201 Created` as
success (`succeeded++`); every other outcome — build error, transport
error, non-201 status — runs `storeFailed`. -/
def forwardJob (cfg : Config) (filename doc sha256 sha512 : String)
    (env : ForwardEnv) : ForwardOutcome :=
  if !env.buildOk then storeFailed cfg filename doc sha256 sha512
  else
    match env.postResult with
    | none => storeFailed cfg filename doc sha256 sha512
    | some status =>
      if status ≠ 201 then storeFailed cfg filename doc sha256 sha512
      else { succeeded := 1, failed := 0, written := [] }

/-! ## OpenPGP key loading (`Downloader.loadOpenPGPKeys`, downloader.go) -/

/-- `strings.EqualFold`, modelled as equality after lower-casing (the
fingerprints the code compares are hexadecimal ASCII strings). -/
def equalFold (a b : String) : Bool := goToLower a = goToLower b

/-- One entry of `$.public_openpgp_keys`: `csaf.PGPKey` with its `URL`
(nil pointer = `none`) and declared `Fingerprint`. -/
structure PGPKey where
  url : Option String
  fingerprint : String

/-- What the world answers for one key descriptor, in control-flow
order: `url.Parse` success; `client.Get` (`none` = transport error,
otherwise the status code); `crypto.NewKeyFromArmoredReader` (`none` =
parse failure, otherwise the key's actual fingerprint); and whether the
keyring operation (`crypto.NewKeyRing`/`AddKey`) fails. -/
structure KeyFetchEnv where
  urlParseOk : Bool
  getResult : Option Nat
  parsedFingerprint : Option String
  ringOpFails : Bool

/-- The key-loading loop: each descriptor is processed independently;
a key is appended to the keyring (here: the list of its accepted keys,
identified by fingerprint) only if its URL is present and parses, the
fetch returned status 200, the armored key parsed, the fetched
fingerprint equals the declared one modulo case, and the keyring
operation succeeded; every failure merely warns and skips the key. -/
def loadOpenPGPKeys : List (PGPKey × KeyFetchEnv) → List String
  | [] => []
  | (key, env) :: rest =>
    match key.url with
    | none => loadOpenPGPKeys rest
    | some _ =>
      if !env.urlParseOk then loadOpenPGPKeys rest
      else
        match env.getResult with
        | none => loadOpenPGPKeys rest
        | some status =>
          if status ≠ 200 then loadOpenPGPKeys rest
          else
            match env.parsedFingerprint with
            | none => loadOpenPGPKeys rest
            | some fp =>
              if !equalFold fp key.fingerprint then loadOpenPGPKeys rest
              else if env.ringOpFails then loadOpenPGPKeys rest
              else fp :: loadOpenPGPKeys rest

/-! ## Proxy resolution (`proxyFromEnvironment`)

The function `proxyFromEnvironment` of package `csaf_downloader` is not
among the extracted sources — only its test
(`TestProxyFromEnvironment`) is — so it is modelled from the spec
below. -/

/-- Model of the Go standard environment-driven proxy resolution
(`httpproxy.FromEnvironment`), restricted to the lowercase variables
the spec and the test exercise: the proxy for an `http` request comes
from a non-empty `http_proxy`, for an `https` request from a non-empty
`https_proxy` (`no_proxy` and the upper-case variants are elided). -/
def goStdProxy (getenv : String → Option String) (scheme : String) :
    Option String :=
  let nonEmpty : Option String → Option String := fun v =>
    match v with
    | some s => if s = "" then none else some s
    | none => none
  if scheme = "http" then nonEmpty (getenv "http_proxy")
  else if scheme = "https" then nonEmpty (getenv "https_proxy")
  else none

/-- Modelled from the spec: `proxyFromEnvironment`
(cmd/csaf_downloader, §4.3 of the spec) is missing from the extracted
sources.  Per the spec: for an `http`-scheme request use
`CSAF_DL_HTTP_PROXY` if it is set and non-empty, for an `https`-scheme
request use `CSAF_DL_HTTPS_PROXY` likewise; otherwise — also when the
`CSAF_DL_*` variable is set but empty — fall back to the standard
environment-driven resolution. -/
def proxyFromEnvironment (getenv : String → Option String) (scheme : String) :
    Option String :=
  if scheme = "http" then
    match getenv "CSAF_DL_HTTP_PROXY" with
    | some p => if p ≠ "" then some p else goStdProxy getenv scheme
    | none => goStdProxy getenv scheme
  else if scheme = "https" then
    match getenv "CSAF_DL_HTTPS_PROXY" with
    | some p => if p ≠ "" then some p else goStdProxy getenv scheme
    | none => goStdProxy getenv scheme
  else goStdProxy getenv scheme

/-! ## Concrete sample inputs (used to evaluate the theorems below on
closed instances) -/

/-- A sample configuration; the validation mode is a parameter. -/
def sampleCfg (mode : ValidationMode) : Config :=
  { Directory := "out", Folder := "", NoStore := false,
    ValidationMode := mode, PreferredHash := none,
    IgnoreSignatureCheck := false, ForwardChannel := false,
    ForwardURL := "", ForwardQueue := 1, Worker := 2 }

/-- A sample advisory descriptor without sidecar URLs. -/
def sampleFile : AdvisoryFile :=
  { url := "https://x/a.json", sha256URL := "", sha512URL := "",
    signURL := "", isDirectory := false }

/-- A sample advisory descriptor carrying both hash sidecar URLs. -/
def sampleFileBothHashes : AdvisoryFile :=
  { url := "https://x/a.json", sha256URL := "u256", sha512URL := "u512",
    signURL := "https://x/a.json.asc", isDirectory := false }

/-- A sample advisory environment: every stage succeeds unless a
parameter says otherwise (`get` is the advisory GET outcome, `jsonOk`
the JSON decode outcome, `schema` the schema validation outcome). -/
def sampleEnv (get : Option (Nat × Bytes)) (jsonOk : Bool)
    (schema : SchemaResult) : AdvEnv :=
  { urlParseOk := true, filename := "a.json", ignored := false,
    conforming := true, getResult := get, readOk := true,
    hashFetch := fun _ => none, jsonDecodeOk := jsonOk,
    sha256Fn := fun _ => [0], sha512Fn := fun _ => [0],
    keyringPresent := false, signatureFetch := none,
    signatureVerifies := false, schemaResult := schema,
    idMatchesFilename := true, validatorPresent := false,
    validatorResult := none, forwarderPresent := false,
    releaseDate := none, now := { utcYear := 2024 } }

/-- A hash-sidecar fetch oracle that succeeds exactly on `"u256"`. -/
def sampleHashFetch : String → Option (Bytes × Bytes) :=
  fun u => if u = "u256" then some ([1], [2]) else none

/-- Sample key descriptors: one fully verified key and one whose
fetched fingerprint does not match the declared one. -/
def sampleKeys : List (PGPKey × KeyFetchEnv) :=
  [({ url := some "k1.asc", fingerprint := "abCD" },
    { urlParseOk := true, getResult := some 200,
      parsedFingerprint := some "ABcd", ringOpFails := false }),
   ({ url := some "k2.asc", fingerprint := "1111" },
    { urlParseOk := true, getResult := some 200,
      parsedFingerprint := some "2222", ringOpFails := false })]

/-- Sample process environments for the proxy model, mirroring the
rows of `TestProxyFromEnvironment`. -/
def sampleProxyEnv (custom : Option String) : String → Option String :=
  fun k =>
    if k = "CSAF_DL_HTTP_PROXY" then custom
    else if k = "http_proxy" then some "http://example.com:8080"
    else none

/-! ## Helper lemmas -/

/-- `update` leaves an `invalid` status unchanged. -/
theorem update_of_invalid (s : validationStatus) :
    validationStatus.update .invalid s = .invalid := by
  simp [validationStatus.update]

/-- `update invalid` forces `invalid` from any status. -/
theorem update_to_invalid (s : validationStatus) :
    validationStatus.update s .invalid = .invalid := by
  unfold validationStatus.update
  split <;> simp_all

/-- A fold of updates starting from `invalid` stays `invalid`. -/
theorem foldl_update_of_invalid (l : List validationStatus) :
    l.foldl validationStatus.update .invalid = .invalid := by
  induction l with
  | nil => rfl
  | cons a l ih => rw [List.foldl_cons, update_of_invalid]; exact ih

/-- An aborted check loop does nothing more. -/
theorem runChecks_of_aborted (strict : Bool) (cs : CheckState)
    (checks : List CheckSpec) (h : cs.aborted = true) :
    runChecks strict cs checks = cs := by
  induction checks with
  | nil => rfl
  | cons c rest ih =>
    unfold runChecks at ih ⊢
    rw [List.foldl_cons]
    have : runCheck strict cs c = cs := by unfold runCheck; rw [h]; simp
    rw [this]; exact ih

/-- In strict mode the check loop ends aborted as soon as some check in
it fails. -/
theorem runChecks_aborted_of_failed (checks : List CheckSpec) (cs : CheckState)
    (h : ∃ c ∈ checks, c.failed = true) :
    (runChecks true cs checks).aborted = true := by
  induction checks generalizing cs with
  | nil => obtain ⟨c, hc, _⟩ := h; exact absurd hc (List.not_mem_nil c)
  | cons c rest ih =>
    by_cases ha : cs.aborted = true
    · rw [runChecks_of_aborted _ _ _ ha]; exact ha
    · obtain ⟨c', hc', hf⟩ := h
      unfold runChecks
      rw [List.foldl_cons]
      rcases List.mem_cons.mp hc' with rfl | hm
      · have habort : (runCheck true cs c').aborted = true := by
          unfold runCheck
          rw [if_neg (by simp [ha])]
          simp [hf]
        rw [show List.foldl (runCheck true) (runCheck true cs c') rest =
            runChecks true (runCheck true cs c') rest from rfl]
        rw [runChecks_of_aborted _ _ _ habort]
        exact habort
      · exact ih (runCheck true cs c) ⟨c', hm, hf⟩

/-- A check loop in which no check fails never aborts and never touches
`valStatus`. -/
theorem runChecks_of_all_pass (strict : Bool) (checks : List CheckSpec)
    (cs : CheckState) (h : ∀ c ∈ checks, c.failed = false)
    (ha : cs.aborted = false) :
    (runChecks strict cs checks).aborted = false ∧
    (runChecks strict cs checks).valStatus = cs.valStatus := by
  induction checks generalizing cs with
  | nil => exact ⟨ha, rfl⟩
  | cons c rest ih =>
    unfold runChecks
    rw [List.foldl_cons]
    have hc : c.failed = false := h c (List.mem_cons_self c rest)
    have hstep : (runCheck strict cs c).aborted = false ∧
        (runCheck strict cs c).valStatus = cs.valStatus := by
      unfold runCheck
      rw [if_neg (by simp [ha])]
      simp [hc]
    have := ih (runCheck strict cs c) (fun c' hc' => h c' (List.mem_cons_of_mem c hc')) hstep.1
    exact ⟨this.1, this.2.trans hstep.2⟩

/-- Each of the worker's six checks only bumps its own dedicated
counter: none touches `downloadFailed` or `succeeded`. -/
theorem checksOf_bumpPreserves (cfg : Config) (env : AdvEnv)
    (hr : HashesResult) (body : Bytes) :
    ∀ c ∈ checksOf cfg env hr body, bumpPreserves c := by
  intro c hc st
  simp only [checksOf, List.mem_cons, List.not_mem_nil, or_false] at hc
  rcases hc with rfl | rfl | rfl | rfl | rfl | rfl
  · unfold s256Check passCheck
    rcases hr.remoteSha256 with _ | r <;> simp <;> split <;> simp
  · unfold s512Check passCheck
    rcases hr.remoteSha512 with _ | r <;> simp <;> split <;> simp
  · unfold keysCheck passCheck
    split
    · split
      · split
        · simp
        · split
          · simp
          · simp
      · simp
    · simp
  · unfold schemaCheck passCheck
    rcases env.schemaResult <;> simp
  · unfold filenameCheck passCheck
    split <;> simp
  · unfold remoteValidatorCheck passCheck
    split
    · split
      · simp
      · simp
      · simp
    · simp

/-- A check loop whose checks all preserve `downloadFailed` and
`succeeded` preserves them overall. -/
theorem runChecks_st_preserved (strict : Bool) (checks : List CheckSpec)
    (cs : CheckState) (h : ∀ c ∈ checks, bumpPreserves c) :
    (runChecks strict cs checks).st.downloadFailed = cs.st.downloadFailed ∧
    (runChecks strict cs checks).st.succeeded = cs.st.succeeded := by
  induction checks generalizing cs with
  | nil => exact ⟨rfl, rfl⟩
  | cons c rest ih =>
    unfold runChecks
    rw [List.foldl_cons]
    have hstep : (runCheck strict cs c).st.downloadFailed = cs.st.downloadFailed ∧
        (runCheck strict cs c).st.succeeded = cs.st.succeeded := by
      unfold runCheck
      split
      · exact ⟨rfl, rfl⟩
      · exact h c (List.mem_cons_self c rest) cs.st
    have := ih (runCheck strict cs c) (fun c' hc' => h c' (List.mem_cons_of_mem c hc'))
    exact ⟨this.1.trans hstep.1, this.2.trans hstep.2⟩

/-! ## The claims -/

/-- C2: the per-advisory validation status is monotone: the worker's
loop starts it at `not_validated`; `update` never changes a status that
is already `invalid`; any update sequence containing `update(invalid)`
ends `invalid` from any starting point; and when no check fails, the
final `update(valid)` the worker applies yields `valid`. -/
theorem claim_C2 :
    initialCheckState.valStatus = .notValidated
    ∧ (∀ s : validationStatus, validationStatus.update .invalid s = .invalid)
    ∧ (∀ (s : validationStatus) (l : List validationStatus),
        .invalid ∈ l → l.foldl validationStatus.update s = .invalid)
    ∧ ∀ (strict : Bool) (checks : List CheckSpec),
        (∀ c ∈ checks, c.failed = false) →
        (runChecks strict initialCheckState checks).valStatus.update .valid = .valid := by
  refine ⟨rfl, update_of_invalid, ?_, ?_⟩
  · intro s l hmem
    induction l generalizing s with
    | nil => exact absurd hmem (List.not_mem_nil _)
    | cons a l ih =>
      rcases List.mem_cons.mp hmem with rfl | hm
      · rw [List.foldl_cons, update_to_invalid, foldl_update_of_invalid]
      · exact ih _ hm
  · intro strict checks h
    have := runChecks_of_all_pass strict checks initialCheckState h rfl
    rw [this.2]
    rfl

/-- Closed instance of C2. -/
theorem claim_C2_witness :
    ([.invalid, .valid].foldl validationStatus.update .notValidated = .invalid)
    ∧ (runChecks true initialCheckState [passCheck]).valStatus.update .valid = .valid := by
  have h := claim_C2
  refine ⟨h.2.2.1 .notValidated _ (by decide), h.2.2.2 true [passCheck] ?_⟩
  intro c hc
  rw [List.mem_singleton] at hc
  rw [hc]
  rfl

/-- C4: `FlattenError` unwraps exactly the one expected level of
nesting: from any (possibly wrapped) `CompositeErrRolieFeed`, each
element from which a `CompositeErrCsafDownload` is reachable
contributes that composite's elements in order and every other element
contributes itself (wrappers around either composite are discarded);
any error from which no `CompositeErrRolieFeed` is reachable flattens
to the singleton of itself, unchanged. -/
theorem claim_C4 :
    (∀ (w : String) (es : List GoErr),
        FlattenError (.wrap w (.rolie es)) =
          es.flatMap fun e => (asDownload e).getD [e])
    ∧ ∀ err : GoErr, asRolie err = none → FlattenError err = [err] := by
  constructor
  · intro w es
    show (match asRolie (GoErr.wrap w (GoErr.rolie es)) with
      | some es =>
        es.flatMap fun e =>
          match asDownload e with
          | some ds => ds
          | none => [e]
      | none => [GoErr.wrap w (GoErr.rolie es)]) = _
    have hro : asRolie (GoErr.wrap w (GoErr.rolie es)) = some es := rfl
    rw [hro]
    refine congrArg es.flatMap ?_
    funext e
    rcases asDownload e with _ | ds <;> rfl
  · intro err h
    unfold FlattenError
    rw [h]

/-- Closed instance of C4: the nesting of the error taxonomy tests. -/
theorem claim_C4_witness :
    FlattenError (.wrap "ctx" (.rolie
      [.base "a", .wrap "dl" (.download [.base "b", .base "c"]), .base "d"])) =
      [.base "a", .base "b", .base "c", .base "d"]
    ∧ FlattenError (.base "solo") = [.base "solo"] := by
  have h := claim_C4
  exact ⟨(h.1 "ctx" _).trans rfl, h.2 _ rfl⟩

/-- C3: when both hash URLs are present and `preferred_hash = sha256`,
the planned intents are stably ordered with the sha256 intent first; a
successful fetch of it stops the loop, so the sha512 URL is never
fetched; a failed fetch of it falls through to the sha512 intent. -/
theorem claim_C3 (cfg : Config) (file : AdvisoryFile)
    (fetch : String → Option (Bytes × Bytes))
    (hpref : cfg.PreferredHash = some .sha256)
    (h256 : file.sha256URL ≠ "") (h512 : file.sha512URL ≠ "") :
    (sortPreferredFirst (buildHashToFetch cfg file)).map
        (fun h => (h.url, h.preferred)) =
      [(file.sha256URL, true), (file.sha512URL, false)]
    ∧ ((∃ rd, fetch file.sha256URL = some rd) →
        (loadHashes fetch (buildHashToFetch cfg file)).fetched = [file.sha256URL])
    ∧ (fetch file.sha256URL = none →
        (loadHashes fetch (buildHashToFetch cfg file)).fetched =
          [file.sha256URL, file.sha512URL]) := by
  have hplan : buildHashToFetch cfg file =
      [{ url := file.sha512URL, preferred := false,
         warn := !file.isDirectory, hashType := .sha512 },
       { url := file.sha256URL, preferred := true,
         warn := !file.isDirectory, hashType := .sha256 }] := by
    unfold buildHashToFetch
    rw [if_pos h512, if_pos h256, hpref]
    cases hd : file.isDirectory <;> simp
  have hsort : sortPreferredFirst (buildHashToFetch cfg file) =
      [{ url := file.sha256URL, preferred := true,
         warn := !file.isDirectory, hashType := .sha256 },
       { url := file.sha512URL, preferred := false,
         warn := !file.isDirectory, hashType := .sha512 }] := by
    rw [hplan]
    unfold sortPreferredFirst
    simp
  refine ⟨by rw [hsort]; rfl, ?_, ?_⟩
  · rintro ⟨⟨remote, data⟩, hf⟩
    unfold loadHashes
    rw [hsort]
    unfold loadHashesLoop
    rw [hf]
    rfl
  · intro hf
    unfold loadHashes
    rw [hsort]
    unfold loadHashesLoop
    rw [hf]
    rcases h2 : fetch file.sha512URL with _ | rd
    · unfold loadHashesLoop
      rw [h2]
      rfl
    · unfold loadHashesLoop
      rw [h2]
      rfl

/-- Closed instance of C3. -/
theorem claim_C3_witness :
    ((sortPreferredFirst (buildHashToFetch
        { sampleCfg .strict with PreferredHash := some .sha256 }
        sampleFileBothHashes)).map (fun h => (h.url, h.preferred)) =
      [("u256", true), ("u512", false)])
    ∧ (loadHashes sampleHashFetch (buildHashToFetch
        { sampleCfg .strict with PreferredHash := some .sha256 }
        sampleFileBothHashes)).fetched = ["u256"] := by
  have h := claim_C3 { sampleCfg .strict with PreferredHash := some .sha256 }
    sampleFileBothHashes sampleHashFetch rfl (by decide) (by decide)
  exact ⟨h.1, h.2.1 ⟨([1], [2]), rfl⟩⟩

/-- C1: in strict validation mode, once any of the six checks fails
the advisory is abandoned: nothing is written anywhere (in particular
nothing under `failed_validation/`), nothing is handed to the forwarder
or the forward channel, and the failing check leaves `downloadFailed`
(and `succeeded`) untouched. -/
theorem claim_C1 (cfg : Config) (file : AdvisoryFile) (label : String)
    (env : AdvEnv) (body : Bytes)
    (hmode : cfg.ValidationMode = .strict)
    (h1 : env.urlParseOk = true) (h2 : env.ignored = false)
    (h3 : env.conforming = true)
    (h4 : env.getResult = some (200, body)) (h5 : env.readOk = true)
    (h6 : env.jsonDecodeOk = true)
    (h7 : ∃ c ∈ checksOf cfg env (workerHashes cfg file env) body,
      c.failed = true) :
    (downloadWorkerStep cfg file label env).written = []
    ∧ (downloadWorkerStep cfg file label env).forwarded = none
    ∧ (downloadWorkerStep cfg file label env).csafEmitted = none
    ∧ (downloadWorkerStep cfg file label env).st.downloadFailed = 0
    ∧ (downloadWorkerStep cfg file label env).st.succeeded = 0 := by
  have habort : (workerChecks cfg file env body).aborted = true := by
    unfold workerChecks
    rw [hmode]
    simp only [eq_self_iff_true, decide_True]
    exact runChecks_aborted_of_failed _ _ h7
  have hdf : (workerChecks cfg file env body).st.downloadFailed = 0 ∧
      (workerChecks cfg file env body).st.succeeded = 0 := by
    unfold workerChecks
    have := runChecks_st_preserved
      (decide (cfg.ValidationMode = ValidationMode.strict))
      (checksOf cfg env (workerHashes cfg file env) body) initialCheckState
      (checksOf_bumpPreserves cfg env (workerHashes cfg file env) body)
    exact ⟨this.1.trans rfl, this.2.trans rfl⟩
  simp [downloadWorkerStep, h1, h2, h3, h4, h5, h6, habort, hdf.1, hdf.2]

/-- Closed instance of C1: strict mode, schema check fails. -/
theorem claim_C1_witness :
    (downloadWorkerStep (sampleCfg .strict) sampleFile "WHITE"
      (sampleEnv (some (200, [1])) true .invalid)).written = []
    ∧ (downloadWorkerStep (sampleCfg .strict) sampleFile "WHITE"
      (sampleEnv (some (200, [1])) true .invalid)).forwarded = none
    ∧ (downloadWorkerStep (sampleCfg .strict) sampleFile "WHITE"
      (sampleEnv (some (200, [1])) true .invalid)).csafEmitted = none
    ∧ (downloadWorkerStep (sampleCfg .strict) sampleFile "WHITE"
      (sampleEnv (some (200, [1])) true .invalid)).st.downloadFailed = 0
    ∧ (downloadWorkerStep (sampleCfg .strict) sampleFile "WHITE"
      (sampleEnv (some (200, [1])) true .invalid)).st.succeeded = 0 :=
  claim_C1 (sampleCfg .strict) sampleFile "WHITE"
    (sampleEnv (some (200, [1])) true .invalid) [1]
    rfl rfl rfl rfl rfl rfl rfl
    ⟨schemaCheck (sampleEnv (some (200, [1])) true .invalid),
      by
        unfold checksOf
        exact List.mem_cons_of_mem _ (List.mem_cons_of_mem _
          (List.mem_cons_of_mem _ (List.mem_cons_self _ _))),
      rfl⟩

/-- C5: a non-200 advisory GET (whose body could still be read) makes
the worker emit exactly one error — 401 ⇒ `ErrInvalidCredentials`,
404 ⇒ `ErrCsafProviderIssue`, ≥ 500 ⇒ a retryable-marked error, any
other non-200 ⇒ a bare error — increment `downloadFailed` by one and
skip the advisory entirely. -/
theorem claim_C5 (cfg : Config) (file : AdvisoryFile) (label : String)
    (env : AdvEnv) (status : Nat) (body : Bytes)
    (h1 : env.urlParseOk = true) (h2 : env.ignored = false)
    (h3 : env.conforming = true)
    (h4 : env.getResult = some (status, body)) (h5 : env.readOk = true)
    (hs : status ≠ 200) :
    (downloadWorkerStep cfg file label env).errors = [classifyStatus status]
    ∧ (downloadWorkerStep cfg file label env).st.downloadFailed = 1
    ∧ (downloadWorkerStep cfg file label env).st.succeeded = 0
    ∧ (downloadWorkerStep cfg file label env).written = []
    ∧ (downloadWorkerStep cfg file label env).forwarded = none
    ∧ (downloadWorkerStep cfg file label env).csafEmitted = none
    ∧ (status = 401 →
        (downloadWorkerStep cfg file label env).errors = [.invalidCredentials])
    ∧ (status = 404 →
        (downloadWorkerStep cfg file label env).errors = [.providerIssue])
    ∧ (500 ≤ status →
        (downloadWorkerStep cfg file label env).errors = [.retryable])
    ∧ (status ≠ 401 → status ≠ 404 → status < 500 →
        (downloadWorkerStep cfg file label env).errors = [.bare]) := by
  have hstep : downloadWorkerStep cfg file label env =
      { emptyOutcome with
        st := { downloadFailed := 1 }
        errors := [classifyStatus status] } := by
    simp [downloadWorkerStep, h1, h2, h3, h4, h5, hs]
  rw [hstep]
  refine ⟨rfl, rfl, rfl, rfl, rfl, rfl, ?_, ?_, ?_, ?_⟩
  · intro h
    subst h
    rfl
  · intro h
    subst h
    rfl
  · intro h
    show [classifyStatus status] = [WorkerErr.retryable]
    unfold classifyStatus
    rw [if_neg (by omega), if_neg (by omega), if_pos h]
  · intro ha hb hc
    show [classifyStatus status] = [WorkerErr.bare]
    unfold classifyStatus
    rw [if_neg ha, if_neg hb, if_neg (by omega)]

/-- Closed instance of C5: a 401 response. -/
theorem claim_C5_witness :
    (downloadWorkerStep (sampleCfg .strict) sampleFile "WHITE"
      (sampleEnv (some (401, [])) true .ok)).errors = [.invalidCredentials]
    ∧ (downloadWorkerStep (sampleCfg .strict) sampleFile "WHITE"
      (sampleEnv (some (401, [])) true .ok)).st.downloadFailed = 1
    ∧ (downloadWorkerStep (sampleCfg .strict) sampleFile "WHITE"
      (sampleEnv (some (401, [])) true .ok)).written = [] := by
  have h := claim_C5 (sampleCfg .strict) sampleFile "WHITE"
    (sampleEnv (some (401, [])) true .ok) 401 []
    rfl rfl rfl rfl rfl (by decide)
  exact ⟨h.2.2.2.2.2.2.1 rfl, h.2.1, h.2.2.2.1⟩

/-- C10: a 200 response whose body is not valid JSON makes the worker
increment `downloadFailed` (not `schemaFailed`), send one
`ErrInvalidCsaf` error, and skip the advisory before any of the six
checks, with nothing written or forwarded — regardless of the
validation mode. -/
theorem claim_C10 (cfg : Config) (file : AdvisoryFile) (label : String)
    (env : AdvEnv) (body : Bytes)
    (h1 : env.urlParseOk = true) (h2 : env.ignored = false)
    (h3 : env.conforming = true)
    (h4 : env.getResult = some (200, body)) (h5 : env.readOk = true)
    (h6 : env.jsonDecodeOk = false) :
    (downloadWorkerStep cfg file label env).st.downloadFailed = 1
    ∧ (downloadWorkerStep cfg file label env).st.schemaFailed = 0
    ∧ (downloadWorkerStep cfg file label env).st.succeeded = 0
    ∧ (downloadWorkerStep cfg file label env).errors = [.invalidCsaf]
    ∧ (downloadWorkerStep cfg file label env).written = []
    ∧ (downloadWorkerStep cfg file label env).forwarded = none
    ∧ (downloadWorkerStep cfg file label env).csafEmitted = none := by
  have hstep : downloadWorkerStep cfg file label env =
      { emptyOutcome with
        st := { downloadFailed := 1 }
        errors := [.invalidCsaf]
        hashFetched := (workerHashes cfg file env).fetched } := by
    simp [downloadWorkerStep, h1, h2, h3, h4, h5, h6]
  rw [hstep]
  exact ⟨rfl, rfl, rfl, rfl, rfl, rfl, rfl⟩

/-- Closed instance of C10 (strict mode; the lax-mode instance behaves
identically by the theorem's mode-independence). -/
theorem claim_C10_witness :
    (downloadWorkerStep (sampleCfg .lax) sampleFile "WHITE"
      (sampleEnv (some (200, [1])) false .ok)).st.downloadFailed = 1
    ∧ (downloadWorkerStep (sampleCfg .lax) sampleFile "WHITE"
      (sampleEnv (some (200, [1])) false .ok)).st.schemaFailed = 0
    ∧ (downloadWorkerStep (sampleCfg .lax) sampleFile "WHITE"
      (sampleEnv (some (200, [1])) false .ok)).errors = [.invalidCsaf]
    ∧ (downloadWorkerStep (sampleCfg .lax) sampleFile "WHITE"
      (sampleEnv (some (200, [1])) false .ok)).written = [] := by
  have h := claim_C10 (sampleCfg .lax) sampleFile "WHITE"
    (sampleEnv (some (200, [1])) false .ok) [1]
    rfl rfl rfl rfl rfl rfl
  exact ⟨h.1, h.2.1, h.2.2.2.1, h.2.2.2.2.1⟩

/-- C6: for an advisory reaching the storage step, with `no_store` the
worker writes nothing and bumps `succeeded` exactly when the final
status is valid; without `no_store` the advisory is written under
`<directory>[/failed_validation]/<folder | label/year>`, where
`failed_validation` appears iff the final status is not valid, the
configured folder overrides the `<lowercased label>/<year>` layout, and
the year is the UTC year of the extracted release date, defaulting to
the current time when extraction fails. -/
theorem claim_C6 (cfg : Config) (file : AdvisoryFile) (label : String)
    (env : AdvEnv) (body : Bytes)
    (h1 : env.urlParseOk = true) (h2 : env.ignored = false)
    (h3 : env.conforming = true)
    (h4 : env.getResult = some (200, body)) (h5 : env.readOk = true)
    (h6 : env.jsonDecodeOk = true)
    (habort : (workerChecks cfg file env body).aborted = false) :
    (cfg.NoStore = true →
      (downloadWorkerStep cfg file label env).written = []
      ∧ (downloadWorkerStep cfg file label env).st.succeeded =
          (if (workerChecks cfg file env body).valStatus.update .valid = .valid
           then 1 else 0))
    ∧ (cfg.NoStore = false →
      (downloadWorkerStep cfg file label env).written.head? = some
        (((if (workerChecks cfg file env body).valStatus.update .valid ≠ .valid
           then [cfg.Directory, failedValidationDir] else [cfg.Directory]) ++
          (if cfg.Folder ≠ "" then [cfg.Folder]
           else [goToLower label,
                 toString ((env.releaseDate.getD env.now).utcYear)]) ++
          [env.filename]), body)) := by
  have hsucc : (workerChecks cfg file env body).st.succeeded = 0 := by
    unfold workerChecks
    have := runChecks_st_preserved
      (decide (cfg.ValidationMode = ValidationMode.strict))
      (checksOf cfg env (workerHashes cfg file env) body) initialCheckState
      (checksOf_bumpPreserves cfg env (workerHashes cfg file env) body)
    exact this.2.trans rfl
  constructor
  · intro hns
    constructor
    · simp [downloadWorkerStep, h1, h2, h3, h4, h5, h6, habort, hns]
    · simp [downloadWorkerStep, h1, h2, h3, h4, h5, h6, habort, hns]
      split <;> simp [hsucc]
  · intro hns
    simp [downloadWorkerStep, h1, h2, h3, h4, h5, h6, habort, hns]

/-- Closed instance of C6: a valid advisory under default layout, and a
`no_store` run. -/
theorem claim_C6_witness :
    (downloadWorkerStep { sampleCfg .strict with NoStore := true } sampleFile
      "WHITE" (sampleEnv (some (200, [7])) true .ok)).written = []
    ∧ (downloadWorkerStep (sampleCfg .strict) sampleFile "WHITE"
      (sampleEnv (some (200, [7])) true .ok)).written.head? =
        some (["out", "white", "2024", "a.json"], [7]) := by
  have h1 := claim_C6 { sampleCfg .strict with NoStore := true } sampleFile
    "WHITE" (sampleEnv (some (200, [7])) true .ok) [7]
    rfl rfl rfl rfl rfl rfl rfl
  have h2 := claim_C6 (sampleCfg .strict) sampleFile "WHITE"
    (sampleEnv (some (200, [7])) true .ok) [7]
    rfl rfl rfl rfl rfl rfl rfl
  exact ⟨(h1.1 rfl).1, (h2.2 rfl).trans (by decide)⟩

/-- C7: a forward job succeeds (bumping `succeeded`) exactly when the
POST went through and returned `201 Created`; on every failure — build
error, transport error or non-201 status — `failed` is bumped and the
advisory plus its non-empty sidecars are spilled into
`<directory>/failed_forward/` under the advisory's basename and
`.sha256`/`.sha512` suffixes. -/
theorem claim_C7 (cfg : Config) (filename doc sha256 sha512 : String)
    (env : ForwardEnv) (hdoc : doc.length ≠ 0) :
    ((forwardJob cfg filename doc sha256 sha512 env).succeeded = 1 ↔
      env.buildOk = true ∧ env.postResult = some 201)
    ∧ (env.buildOk = true → env.postResult = some 201 →
        forwardJob cfg filename doc sha256 sha512 env =
          { succeeded := 1, failed := 0, written := [] })
    ∧ (¬(env.buildOk = true ∧ env.postResult = some 201) →
        (forwardJob cfg filename doc sha256 sha512 env).failed = 1
        ∧ (forwardJob cfg filename doc sha256 sha512 env).written =
            [([cfg.Directory, failedForwardDir, filename], doc)] ++
            (if sha256.length ≠ 0 then
              [([cfg.Directory, failedForwardDir, filename ++ ".sha256"], sha256)]
             else []) ++
            (if sha512.length ≠ 0 then
              [([cfg.Directory, failedForwardDir, filename ++ ".sha512"], sha512)]
             else [])) := by
  obtain ⟨b, p⟩ := env
  have hfail : (forwardJob cfg filename doc sha256 sha512 ⟨b, p⟩ =
      storeFailed cfg filename doc sha256 sha512) →
      (forwardJob cfg filename doc sha256 sha512 ⟨b, p⟩).failed = 1
      ∧ (forwardJob cfg filename doc sha256 sha512 ⟨b, p⟩).written =
          [([cfg.Directory, failedForwardDir, filename], doc)] ++
          (if sha256.length ≠ 0 then
            [([cfg.Directory, failedForwardDir, filename ++ ".sha256"], sha256)]
           else []) ++
          (if sha512.length ≠ 0 then
            [([cfg.Directory, failedForwardDir, filename ++ ".sha512"], sha512)]
           else []) := by
    intro he
    rw [he]
    refine ⟨rfl, ?_⟩
    unfold storeFailed storeFailedAdvisory
    rw [if_pos hdoc]
  cases b with
  | false =>
    have he : forwardJob cfg filename doc sha256 sha512 ⟨false, p⟩ =
        storeFailed cfg filename doc sha256 sha512 := rfl
    refine ⟨?_, ?_, fun _ => hfail he⟩
    · rw [he]
      simp [storeFailed]
    · intro h
      simp at h
  | true =>
    cases p with
    | none =>
      have he : forwardJob cfg filename doc sha256 sha512 ⟨true, none⟩ =
          storeFailed cfg filename doc sha256 sha512 := rfl
      refine ⟨?_, ?_, fun _ => hfail he⟩
      · rw [he]
        simp [storeFailed]
      · intro _ h
        simp at h
    | some status =>
      by_cases h201 : status = 201
      · subst h201
        have he : forwardJob cfg filename doc sha256 sha512 ⟨true, some 201⟩ =
            { succeeded := 1, failed := 0, written := [] } := rfl
        refine ⟨?_, fun _ _ => he, fun hn => absurd ⟨rfl, rfl⟩ hn⟩
        rw [he]
        simp
      · have he : forwardJob cfg filename doc sha256 sha512 ⟨true, some status⟩ =
            storeFailed cfg filename doc sha256 sha512 := by
          unfold forwardJob
          simp [h201]
        refine ⟨?_, ?_, fun _ => hfail he⟩
        · rw [he]
          simp [storeFailed, h201]
        · intro _ h
          simp at h
          exact absurd h h201

/-- Closed instance of C7: a 500 response spills advisory and the
non-empty sha256 sidecar. -/
theorem claim_C7_witness :
    (forwardJob (sampleCfg .strict) "a.json" "doc" "h256" ""
      { buildOk := true, postResult := some 500 }).failed = 1
    ∧ (forwardJob (sampleCfg .strict) "a.json" "doc" "h256" ""
      { buildOk := true, postResult := some 500 }).written =
        [(["out", "failed_forward", "a.json"], "doc"),
         (["out", "failed_forward", "a.json.sha256"], "h256")]
    ∧ (forwardJob (sampleCfg .strict) "a.json" "doc" "h256" ""
      { buildOk := true, postResult := some 201 }) =
        { succeeded := 1, failed := 0, written := [] } := by
  have h1 := claim_C7 (sampleCfg .strict) "a.json" "doc" "h256" ""
    { buildOk := true, postResult := some 500 } (by decide)
  have h2 := claim_C7 (sampleCfg .strict) "a.json" "doc" "h256" ""
    { buildOk := true, postResult := some 201 } (by decide)
  have hna : ¬((true : Bool) = true ∧ (some 500 : Option Nat) = some 201) := by
    rintro ⟨_, h⟩
    cases h
  refine ⟨(h1.2.2 hna).1, ((h1.2.2 hna).2).trans (by decide), h2.2.1 rfl rfl⟩

/-- C8: (spec-modelled, see `proxyFromEnvironment`) for an http-scheme
request a set and non-empty `CSAF_DL_HTTP_PROXY` wins over `http_proxy`,
while an unset or empty `CSAF_DL_HTTP_PROXY` leaves resolution to the
standard environment variables; analogously for https-scheme requests
and `CSAF_DL_HTTPS_PROXY`. -/
theorem claim_C8 (getenv : String → Option String) :
    (∀ proxy, getenv "CSAF_DL_HTTP_PROXY" = some proxy → proxy ≠ "" →
      proxyFromEnvironment getenv "http" = some proxy)
    ∧ (getenv "CSAF_DL_HTTP_PROXY" = none ∨ getenv "CSAF_DL_HTTP_PROXY" = some "" →
      proxyFromEnvironment getenv "http" = goStdProxy getenv "http")
    ∧ (∀ proxy, getenv "CSAF_DL_HTTPS_PROXY" = some proxy → proxy ≠ "" →
      proxyFromEnvironment getenv "https" = some proxy)
    ∧ (getenv "CSAF_DL_HTTPS_PROXY" = none ∨ getenv "CSAF_DL_HTTPS_PROXY" = some "" →
      proxyFromEnvironment getenv "https" = goStdProxy getenv "https") := by
  refine ⟨?_, ?_, ?_, ?_⟩
  · intro proxy hset hne
    unfold proxyFromEnvironment
    rw [if_pos rfl, hset]
    simp [hne]
  · intro hunset
    unfold proxyFromEnvironment
    rw [if_pos rfl]
    rcases hunset with h | h
    · rw [h]
    · rw [h]
      simp
  · intro proxy hset hne
    unfold proxyFromEnvironment
    rw [if_neg (by decide), if_pos rfl, hset]
    simp [hne]
  · intro hunset
    unfold proxyFromEnvironment
    rw [if_neg (by decide), if_pos rfl]
    rcases hunset with h | h
    · rw [h]
    · rw [h]
      simp

/-- Closed instance of C8: the three rows of the proxy test table. -/
theorem claim_C8_witness :
    proxyFromEnvironment (sampleProxyEnv (some "http://custom.com:8080")) "http" =
      some "http://custom.com:8080"
    ∧ proxyFromEnvironment (sampleProxyEnv (some "")) "http" =
      some "http://example.com:8080"
    ∧ proxyFromEnvironment (sampleProxyEnv none) "http" =
      some "http://example.com:8080" := by
  refine ⟨(claim_C8 (sampleProxyEnv (some "http://custom.com:8080"))).1
      "http://custom.com:8080" rfl (by decide),
    ((claim_C8 (sampleProxyEnv (some ""))).2.1 (Or.inr rfl)).trans (by decide),
    ((claim_C8 (sampleProxyEnv none)).2.1 (Or.inl rfl)).trans (by decide)⟩

/-- C9: every fingerprint in the keyring built by `loadOpenPGPKeys`
comes from a descriptor whose key was fetched with status 200, parsed,
and whose fingerprint matches the declared one case-insensitively —
keys failing any step are skipped. -/
theorem claim_C9 (entries : List (PGPKey × KeyFetchEnv)) (fp : String)
    (hmem : fp ∈ loadOpenPGPKeys entries) :
    ∃ pe ∈ entries, pe.2.getResult = some 200
      ∧ pe.2.parsedFingerprint = some fp
      ∧ equalFold fp pe.1.fingerprint = true := by
  induction entries with
  | nil => exact absurd hmem (List.not_mem_nil fp)
  | cons pe rest ih =>
    obtain ⟨key, kenv⟩ := pe
    have lift : (fp ∈ loadOpenPGPKeys rest) →
        ∃ pe ∈ (key, kenv) :: rest, pe.2.getResult = some 200
          ∧ pe.2.parsedFingerprint = some fp
          ∧ equalFold fp pe.1.fingerprint = true := by
      intro hm
      obtain ⟨pe, hpe, h⟩ := ih hm
      exact ⟨pe, List.mem_cons_of_mem _ hpe, h⟩
    unfold loadOpenPGPKeys at hmem
    rcases hu : key.url with _ | u
    · simp only [hu] at hmem
      exact lift hmem
    · simp only [hu] at hmem
      rcases hpok : kenv.urlParseOk with _ | _
      · simp [hpok] at hmem
        exact lift hmem
      · simp only [hpok] at hmem
        rcases hget : kenv.getResult with _ | status
        · simp [hget] at hmem
          exact lift hmem
        · by_cases hst : status = 200
          · subst hst
            simp only [hget] at hmem
            rcases hpf : kenv.parsedFingerprint with _ | fp'
            · simp [hpf] at hmem
              exact lift hmem
            · simp only [hpf] at hmem
              rcases heq : equalFold fp' key.fingerprint with _ | _
              · simp [heq] at hmem
                exact lift hmem
              · simp only [heq] at hmem
                rcases hring : kenv.ringOpFails with _ | _
                · simp [hring] at hmem
                  rcases hmem with rfl | hm
                  · exact ⟨(key, kenv), List.mem_cons_self _ _, hget, hpf, heq⟩
                  · exact lift hm
                · simp [hring] at hmem
                  exact lift hmem
          · simp [hget, hst] at hmem
            exact lift hmem

/-- Closed instance of C9: of the two sample keys only the
fingerprint-verified one is in the keyring, and it satisfies the
invariant. -/
theorem claim_C9_witness :
    ∃ pe ∈ sampleKeys, pe.2.getResult = some 200
      ∧ pe.2.parsedFingerprint = some "ABcd"
      ∧ equalFold "ABcd" pe.1.fingerprint = true :=
  claim_C9 sampleKeys "ABcd" (by decide)
